import Mathlib

/-!
Verification development for the whisper-flow dictation utility.

Shallow embedding of the core components:
- editor.py      : BasicEditor rule-based cleanup, AI editors with fallback
- typer.py       : TextTyper.type_text / _paste_text clipboard discipline
- hotkey.py      : HotkeyHandler key normalization and mode state machine
- recorder.py    : AudioRecorder start/stop guard
- overlay_win.py : OverlayWindow session controller and processing pipeline
- config.py      : HotkeyConfig mode validation

Machine-level details that the claims do not depend on (thread scheduling,
wall-clock floats, the pynput/pyperclip/sounddevice/httpx backends) are
modelled as explicit parameters or integer-millisecond timestamps; the rest is
translated directly from the Python source.
-/

namespace WhisperFlow

/-! ## Character classes used by the regex passes in editor.py

Python `re` classes restricted to the ASCII range the code operates on:
`\w` is `[a-zA-Z0-9_]`, `\s` is `[ \t\n\r\x0b\x0c]`, and the punctuation
class in the cleanup passes is `[.,!?;:]`. -/

def isWordChar (c : Char) : Bool :=
  c.isAlphanum || c = '_'

def isSpaceChar (c : Char) : Bool :=
  c = ' ' || c = '\t' || c = '\n' || c = '\r' || c = '\x0b' || c = '\x0c'

def isPunctChar (c : Char) : Bool :=
  c = '.' || c = ',' || c = '!' || c = '?' || c = ';' || c = ':'

/-- Word-boundary test on the left of a match position: `\b` holds at the
start of the string or after a non-word character (every filler pattern
begins with a word character). -/
def boundaryBefore (prev : Option Char) : Bool :=
  match prev with
  | none => true
  | some p => !isWordChar p

/-- Word-boundary test on the right of a match: `\b` holds at the end of the
string or before a non-word character (every filler pattern ends with a word
character). -/
def boundaryAfter (rest : List Char) : Bool :=
  match rest with
  | [] => true
  | c :: _ => !isWordChar c

/-- Case-insensitive literal match (`re.IGNORECASE`): the pattern is given
lower-case, input characters are lowered before comparison. Returns the
consumed input characters and the remainder. -/
def matchChars : List Char → List Char → Option (List Char × List Char)
  | [], cs => some ([], cs)
  | _ :: _, [] => none
  | p :: ps, c :: cs =>
    if c.toLower = p then
      (fun pr => (c :: pr.1, pr.2)) <$> matchChars ps cs
    else
      none

/-- Greedy run of a repeated character (the `m+` in `\bum+\b`), case
insensitive. Returns the run and the remainder. -/
def takeRun (rep : Char) : List Char → List Char × List Char
  | [] => ([], [])
  | c :: cs =>
    if c.toLower = rep then
      let pr := takeRun rep cs
      (c :: pr.1, pr.2)
    else
      ([], c :: cs)

/-! ## FILLER_WORDS (editor.py lines 12-24)

Each Python pattern is one of three shapes:
- `\bum+\b`, `\buh+\b`                      — a head character plus a greedy run,
- `\blike\b(?=,|\s+,)`                      — "like" only when a comma follows,
- `\b<literal phrase>\b`                    — a fixed word or two-word phrase. -/

inductive FillerPat
  | plusPat (head : Char) (rep : Char)
  | likeComma
  | phrase (w : List Char)
deriving DecidableEq

/-- Lookahead `(?=,|\s+,)` of the "like" pattern: the remainder starts with a
comma, or with at least one whitespace character followed by a comma. -/
def lookaheadComma (rest : List Char) : Bool :=
  match rest with
  | ',' :: _ => true
  | _ =>
    let pr := List.span isSpaceChar rest
    !pr.1.isEmpty &&
      match pr.2 with
      | ',' :: _ => true
      | _ => false

/-- Try to match one filler pattern at the current position. `prev` is the
original character immediately before the position (for `\b`). Returns the
matched characters and the remainder on success. -/
def tryFiller (pat : FillerPat) (prev : Option Char) (cs : List Char) :
    Option (List Char × List Char) :=
  if !boundaryBefore prev then none
  else
    match pat with
    | .plusPat h rep =>
      match cs with
      | [] => none
      | c :: rest =>
        if c.toLower = h then
          let pr := takeRun rep rest
          if pr.1.isEmpty then none
          else if boundaryAfter pr.2 then some (c :: pr.1, pr.2) else none
        else none
    | .likeComma =>
      match matchChars ['l', 'i', 'k', 'e'] cs with
      | some pr =>
        if boundaryAfter pr.2 && lookaheadComma pr.2 then some pr else none
      | none => none
    | .phrase w =>
      match matchChars w cs with
      | some pr =>
        if boundaryAfter pr.2 then some pr else none
      | none => none

/-- One `re.sub(pattern, "", text)` pass: leftmost non-overlapping matches
are deleted, scanning resumes after each match, and boundary context refers
to the original characters. `fuel` bounds the recursion (each step consumes
at least one input character, so `cs.length` fuel is always enough). -/
def subFillerGo (pat : FillerPat) : Nat → Option Char → List Char → List Char
  | 0, _, cs => cs
  | _ + 1, _, [] => []
  | fuel + 1, prev, c :: rest =>
    match tryFiller pat prev (c :: rest) with
    | some pr =>
      subFillerGo pat fuel
        (match pr.1.getLast? with
         | some x => some x
         | none => prev)
        pr.2
    | none => c :: subFillerGo pat fuel (some c) rest

def subFiller (pat : FillerPat) (cs : List Char) : List Char :=
  subFillerGo pat cs.length none cs

/-- The FILLER_WORDS list, in source order. -/
def FILLER_WORDS : List FillerPat :=
  [ .plusPat 'u' 'm',
    .plusPat 'u' 'h',
    .likeComma,
    .phrase "you know".toList,
    .phrase "i mean".toList,
    .phrase "kind of".toList,
    .phrase "sort of".toList,
    .phrase "basically".toList,
    .phrase "actually".toList,
    .phrase "literally".toList,
    .phrase "honestly".toList ]

/-! ## The remaining cleanup passes of BasicEditor.edit (editor.py 68-92) -/

/-- One pass of `re.sub(r"\s+", " ", result)`: every maximal whitespace run
becomes a single space. `prevSpace` records whether the previous character
belonged to a run already emitted. -/
def collapseWsGo (prevSpace : Bool) : List Char → List Char
  | [] => []
  | c :: rest =>
    if isSpaceChar c then
      if prevSpace then collapseWsGo true rest
      else ' ' :: collapseWsGo true rest
    else c :: collapseWsGo false rest

/-- One pass of `re.sub(r"\s+([.,!?;:])", r"\1", result)`: a whitespace run
immediately followed by punctuation is dropped. `pend` holds (reversed) the
whitespace run not yet known to precede punctuation. -/
def fixSpaceBeforePunctGo (pend : List Char) : List Char → List Char
  | [] => pend.reverse
  | c :: rest =>
    if isSpaceChar c then fixSpaceBeforePunctGo (c :: pend) rest
    else if isPunctChar c && !pend.isEmpty then
      c :: fixSpaceBeforePunctGo [] rest
    else pend.reverse ++ c :: fixSpaceBeforePunctGo [] rest

/-- One pass of `re.sub(r"([.,!?;:])(?=[^\s])", r"\1 ", result)`: a space is
inserted after punctuation directly followed by a non-whitespace character. -/
def spaceAfterPunctGo : List Char → List Char
  | [] => []
  | c :: rest =>
    if isPunctChar c &&
        (match rest with
         | r :: _ => !isSpaceChar r
         | [] => false) then
      c :: ' ' :: spaceAfterPunctGo rest
    else c :: spaceAfterPunctGo rest

/-- Python `str.strip()` with no argument: remove leading and trailing
whitespace. -/
def pyStrip (cs : List Char) : List Char :=
  ((cs.dropWhile isSpaceChar).reverse.dropWhile isSpaceChar).reverse

/-- `result[0].upper() + result[1:]` on a non-empty string. -/
def capitalizeHead : List Char → List Char
  | [] => []
  | c :: rest => c.toUpper :: rest

/-- `if result and result[-1] not in ".!?": result += "."` -/
def ensureEndPunct (cs : List Char) : List Char :=
  match cs.getLast? with
  | none => cs
  | some c => if c = '.' || c = '!' || c = '?' then cs else cs ++ ['.']

/-- BasicEditor.edit (editor.py lines 68-92): filler removal, whitespace
collapse, punctuation spacing, strip, first-letter capitalization, terminal
punctuation. The preset argument is accepted and ignored, as in the source. -/
def BasicEditor.edit (text : String) (_preset : String) : String :=
  let r0 := FILLER_WORDS.foldl (fun acc pat => subFiller pat acc) text.toList
  let r1 := collapseWsGo false r0
  let r2 := fixSpaceBeforePunctGo [] r1
  let r3 := spaceAfterPunctGo r2
  let r4 := pyStrip r3
  let r5 := capitalizeHead r4
  String.mk (ensureEndPunct r5)

/-! ## TextTyper (typer.py)

The pyperclip/pynput primitives are external; a `PasteOracle` fixes, for one
call, which of the four externally-failable operations raise: reading the
original clipboard, copying the new text, sending the paste shortcut, and
writing the original back. The clipboard itself is a single string value. -/

structure PasteOracle where
  captureOk : Bool
  copyOk : Bool
  pasteOk : Bool
  restoreOk : Bool
deriving DecidableEq

inductive TyperEffect
  | typeChar (c : Char)
  | clipRead
  | clipWrite (s : String)
  | pasteShortcut
deriving DecidableEq

/-- Result of one insertion call: the attempted external operations in order,
the final clipboard value, whether an exception propagates to the caller,
and whether the finally-block restore was attempted. -/
structure InsertOutcome where
  effects : List TyperEffect
  clip : String
  raised : Bool
  restoreAttempted : Bool
deriving DecidableEq

/-- TextTyper._paste_text (typer.py lines 43-72). `clip` is the clipboard
value on entry. Capture failure yields `original = None`; the try-block runs
copy then the paste shortcut, an exception skipping the rest; the
finally-block writes the original back iff it was captured, swallowing any
error of that write. -/
def pasteText (o : PasteOracle) (clip text : String) : InsertOutcome :=
  let original : Option String := if o.captureOk then some clip else none
  let bodyEffects :=
    if o.copyOk then [TyperEffect.clipWrite text, TyperEffect.pasteShortcut]
    else [TyperEffect.clipWrite text]
  let bodyClip := if o.copyOk then text else clip
  let bodyRaised := !o.copyOk || !o.pasteOk
  match original with
  | some orig =>
    { effects := TyperEffect.clipRead :: bodyEffects ++ [TyperEffect.clipWrite orig]
      clip := if o.restoreOk then orig else bodyClip
      raised := bodyRaised
      restoreAttempted := true }
  | none =>
    { effects := TyperEffect.clipRead :: bodyEffects
      clip := bodyClip
      raised := bodyRaised
      restoreAttempted := false }

/-- TextTyper._type_text (typer.py lines 36-41): one synthetic key event per
character. -/
def typeCharEffects (text : String) : List TyperEffect :=
  text.toList.map TyperEffect.typeChar

/-- TextTyper.type_text (typer.py lines 17-34): empty text returns
immediately; method "auto" resolves to "paste" for texts longer than 50
characters and "type" otherwise; "paste" delegates to `_paste_text`, any
other method to `_type_text`. -/
def typeText (o : PasteOracle) (clip text method : String) : InsertOutcome :=
  if text = "" then
    { effects := [], clip := clip, raised := false, restoreAttempted := false }
  else
    let m := if method = "auto" then (if text.length > 50 then "paste" else "type") else method
    if m = "paste" then pasteText o clip text
    else
      { effects := typeCharEffects text, clip := clip, raised := false
        restoreAttempted := false }

/-! ## Key-event normalization (hotkey.py lines 42-69)

A raw pynput key event is seen by `_normalize_key` through three features:
an optional `char` attribute (absent or `None`/empty both fall through), an
optional `name` attribute, and the `str(key)` representation used by the
fallback branch that canonicalizes modifier variants. -/

structure RawKey where
  char : Option String
  name : Option String
  repr : String

/-- Python `str.lower()`, character by character (the tokens involved are
ASCII). -/
def strLower (s : String) : String :=
  String.mk (s.toList.map Char.toLower)

/-- Python `str.replace(pat, rep)`: every non-overlapping occurrence of
`pat`, scanning left to right. `fuel` bounds the recursion; each step
consumes at least one character. -/
def replaceGo (pat rep : List Char) : Nat → List Char → List Char
  | 0, cs => cs
  | _ + 1, [] => []
  | fuel + 1, c :: rest =>
    if pat ≠ [] && pat.isPrefixOf (c :: rest) then
      rep ++ replaceGo pat rep fuel ((c :: rest).drop pat.length)
    else
      c :: replaceGo pat rep fuel rest

def strReplace (s pat rep : String) : String :=
  String.mk (replaceGo pat.toList rep.toList s.toList.length s.toList)

/-- The branch of `_normalize_key` reached when the key has no usable `char`
attribute: a `name` attribute is lowered and returned; otherwise `str(key)`
has a leading "Key." stripped, is lowered, and left/right modifier variants
collapse to one canonical token per family. -/
def normalizeKeyTail (k : RawKey) : Option String :=
  match k.name with
  | some n => some (strLower n)
  | none =>
    let keyStr := strLower (strReplace k.repr "Key." "")
    if keyStr = "cmd" || keyStr = "cmd_l" || keyStr = "cmd_r" then some "cmd"
    else if keyStr = "ctrl" || keyStr = "ctrl_l" || keyStr = "ctrl_r" then some "ctrl"
    else if keyStr = "shift" || keyStr = "shift_l" || keyStr = "shift_r" then some "shift"
    else if keyStr = "alt" || keyStr = "alt_l" || keyStr = "alt_r" || keyStr = "option" then
      some "alt"
    else some keyStr

/-- HotkeyHandler._normalize_key: a truthy `char` attribute wins and is
lowered; otherwise the name/representation fallback applies. -/
def normalizeKey (k : RawKey) : Option String :=
  match k.char with
  | some c => if c = "" then normalizeKeyTail k else some (strLower c)
  | none => normalizeKeyTail k

/-! ## HotkeyHandler state machine (hotkey.py) -/

/-- HotkeyConfig (config.py lines 12-19). `modifier2` uses Python truthiness
in `_is_hotkey_pressed`, so the empty string means "not set". -/
structure HotkeyConfig where
  modifier1 : String
  modifier2 : String
  key : String
  mode : String

inductive Signal
  | activate
  | deactivate
deriving DecidableEq

/-- Transient listener state of HotkeyHandler (hotkey.py lines 32-40). The
wall-clock timestamps of `time.time()` (seconds, as floats) are modelled in
integer milliseconds, so the 0.4 s double-tap threshold becomes 400 ms. The
`listenerRunning` flag stands for `self._listener is not None`. -/
structure HotkeyState where
  pressedKeys : Finset String
  hotkeyActive : Bool
  isToggled : Bool
  lastTapTime : ℤ
  inContinuousMode : Bool
  listenerRunning : Bool
deriving DecidableEq

def hkInit : HotkeyState :=
  { pressedKeys := ∅, hotkeyActive := false, isToggled := false,
    lastTapTime := 0, inContinuousMode := false, listenerRunning := false }

/-- The required key set of `_is_hotkey_pressed` (hotkey.py lines 71-77):
modifier1 and key lowered, plus modifier2 when truthy. -/
def requiredKeys (cfg : HotkeyConfig) : Finset String :=
  let base : Finset String := {strLower cfg.modifier1, strLower cfg.key}
  if cfg.modifier2 ≠ "" then insert (strLower cfg.modifier2) base else base

def isHotkeyPressed (cfg : HotkeyConfig) (pressed : Finset String) : Bool :=
  decide (requiredKeys cfg ⊆ pressed)

/-- The double-tap threshold, 0.4 seconds (hotkey.py line 39), in
milliseconds. -/
def doubleTapThreshold : ℤ := 400

/-- HotkeyHandler._on_press (hotkey.py lines 79-116) at timestamp `t` (in
milliseconds). `hasDeactivate` is whether an `on_deactivate` callback was
supplied; fired callbacks are returned as signals in program order. -/
def hkOnPress (cfg : HotkeyConfig) (hasDeactivate : Bool) (k : RawKey) (t : ℤ)
    (s : HotkeyState) : HotkeyState × List Signal :=
  let s :=
    match normalizeKey k with
    | some ks => { s with pressedKeys := insert ks s.pressedKeys }
    | none => s
  if isHotkeyPressed cfg s.pressedKeys && !s.hotkeyActive then
    let s := { s with hotkeyActive := true }
    if cfg.mode = "toggle" then
      let s := { s with isToggled := !s.isToggled }
      if s.isToggled then (s, [Signal.activate])
      else if hasDeactivate then (s, [Signal.deactivate])
      else (s, [])
    else if cfg.mode = "wispr" then
      if s.inContinuousMode then
        let s := { s with inContinuousMode := false, lastTapTime := t }
        if hasDeactivate then (s, [Signal.deactivate]) else (s, [])
      else if t - s.lastTapTime < doubleTapThreshold then
        ({ s with inContinuousMode := true, lastTapTime := t }, [Signal.activate])
      else
        ({ s with lastTapTime := t }, [Signal.activate])
    else
      (s, [Signal.activate])
  else (s, [])

/-- HotkeyHandler._on_release (hotkey.py lines 118-140): discard the key,
then the hold-mode deactivation branch, then the wispr-mode branch (skipped
in continuous mode), and finally the self-healing reset of `hotkeyActive`
when no keys remain pressed. -/
def hkOnRelease (cfg : HotkeyConfig) (hasDeactivate : Bool) (k : RawKey)
    (s : HotkeyState) : HotkeyState × List Signal :=
  let s :=
    match normalizeKey k with
    | some ks => { s with pressedKeys := s.pressedKeys.erase ks }
    | none => s
  let pr1 :=
    if cfg.mode = "hold" && s.hotkeyActive && !isHotkeyPressed cfg s.pressedKeys then
      ({ s with hotkeyActive := false },
       if hasDeactivate then [Signal.deactivate] else [])
    else (s, [])
  let s1 := pr1.1
  let pr2 :=
    if cfg.mode = "wispr" && s1.hotkeyActive && !s1.inContinuousMode
        && !isHotkeyPressed cfg s1.pressedKeys then
      ({ s1 with hotkeyActive := false },
       if hasDeactivate then [Signal.deactivate] else [])
    else (s1, [])
  let s2 := pr2.1
  let s3 := if s2.pressedKeys = ∅ then { s2 with hotkeyActive := false } else s2
  (s3, pr1.2 ++ pr2.2)

/-- HotkeyHandler.start (hotkey.py lines 142-165): a no-op when a listener
already exists; otherwise only the listener comes up (no transient state is
touched). -/
def hkStart (s : HotkeyState) : HotkeyState :=
  if s.listenerRunning then s else { s with listenerRunning := true }

/-- HotkeyHandler.stop (hotkey.py lines 167-174): tear the listener down and
clear the pressed-key set, the active flag and the toggle flag. -/
def hkStop (s : HotkeyState) : HotkeyState :=
  { s with listenerRunning := false, pressedKeys := ∅,
           hotkeyActive := false, isToggled := false }

inductive KeyEvent
  | press (k : RawKey) (t : ℤ)
  | release (k : RawKey)

def hkStep (cfg : HotkeyConfig) (hasDeactivate : Bool)
    (acc : HotkeyState × List Signal) (e : KeyEvent) : HotkeyState × List Signal :=
  match e with
  | .press k t =>
    let pr := hkOnPress cfg hasDeactivate k t acc.1
    (pr.1, acc.2 ++ pr.2)
  | .release k =>
    let pr := hkOnRelease cfg hasDeactivate k acc.1
    (pr.1, acc.2 ++ pr.2)

/-- Deliver a sequence of key events to the handler, collecting the fired
signals in order. -/
def hkRun (cfg : HotkeyConfig) (hasDeactivate : Bool) (s : HotkeyState)
    (evs : List KeyEvent) : HotkeyState × List Signal :=
  evs.foldl (hkStep cfg hasDeactivate) (s, [])

/-! ## Recording session controller (overlay_win.py lines 146-259,
recorder.py lines 41-57) -/

structure SessionState where
  isRecording : Bool
  isProcessing : Bool
  recActive : Bool
deriving DecidableEq

inductive SessionEffect
  | startCapture
deriving DecidableEq

def sessionInit : SessionState :=
  { isRecording := false, isProcessing := false, recActive := false }

/-- AudioRecorder.start (recorder.py lines 41-57): an early return when a
capture is already active, otherwise a fresh capture stream starts. -/
def recorderStart (recActive : Bool) : Bool × List SessionEffect :=
  if recActive then (recActive, [])
  else (true, [SessionEffect.startCapture])

/-- OverlayWindow._on_activate (overlay_win.py lines 156-163): ignored while
processing or recording; otherwise enter Recording and start capture. -/
def sessionActivate (s : SessionState) : SessionState × List SessionEffect :=
  if s.isProcessing || s.isRecording then (s, [])
  else
    let pr := recorderStart s.recActive
    ({ s with isRecording := true, recActive := pr.1 }, pr.2)

/-- OverlayWindow._on_deactivate (overlay_win.py lines 165-175): ignored
unless recording; otherwise enter Processing and hand off to the background
processing thread. -/
def sessionDeactivate (s : SessionState) : SessionState × List SessionEffect :=
  if !s.isRecording then (s, [])
  else ({ s with isRecording := false, isProcessing := true }, [])

/-- Completion of OverlayWindow._process_recording (overlay_win.py lines
189-259): the recorder was stopped inside the thread and the finally-block
clears the processing flag. -/
def sessionProcessDone (s : SessionState) : SessionState × List SessionEffect :=
  ({ s with recActive := false, isProcessing := false }, [])

/-- OverlayWindow._on_click (overlay_win.py lines 146-154): ignored while
processing; otherwise toggles between the activate and deactivate paths. -/
def sessionClick (s : SessionState) : SessionState × List SessionEffect :=
  if s.isProcessing then (s, [])
  else if s.isRecording then sessionDeactivate s
  else sessionActivate s

inductive SessionEvent
  | activate
  | deactivate
  | processDone
  | click

def sessionStep (e : SessionEvent) (s : SessionState) : SessionState × List SessionEffect :=
  match e with
  | .activate => sessionActivate s
  | .deactivate => sessionDeactivate s
  | .processDone => sessionProcessDone s
  | .click => sessionClick s

def sessionRun (evs : List SessionEvent) : SessionState :=
  evs.foldl (fun s e => (sessionStep e s).1) sessionInit

/-! ## Configuration-time mode validation (config.py line 19) and the mode
vocabulary of the implementation -/

/-- The pydantic field `mode: Literal["hold", "toggle"]` of HotkeyConfig:
the set of mode strings accepted when settings are validated at load time. -/
def hotkeyModeAllowed (m : String) : Bool :=
  m = "hold" || m = "toggle"

/-- The mode-description table of HotkeyHandler.start (hotkey.py lines
159-163): the modes the handler itself documents and implements. -/
def modeDescription (m : String) : Option String :=
  if m = "hold" then some "hold to talk"
  else if m = "toggle" then some "tap to toggle"
  else if m = "wispr" then some "hold to talk, double-tap for continuous"
  else none

/-- The segmented-control mapping of the macOS settings window
(src/rodin/ui/app.py lines 393-396): selecting segment 2 stores mode
"wispr" into the persisted settings. -/
def rodinIndexMode (n : Nat) : String :=
  if n = 0 then "hold" else if n = 1 then "toggle" else if n = 2 then "wispr" else "hold"

/-! ## Python str.format, restricted to the shapes the editors use

`prompt_template.format(text=text)` runs before the try-block of every AI
editor (editor.py lines 104-105, 138-139, 172-174). The model substitutes
field "text", doubles braces, and reports failure (`none`) for any other
field name (KeyError) or for an unbalanced brace (ValueError), exactly the
cases in which the CPython call raises when given only the `text` keyword. -/

def parseFieldGo (acc : List Char) : List Char → Option (List Char × List Char)
  | [] => none
  | '\x7d' :: rest => some (acc.reverse, rest)
  | c :: rest => parseFieldGo (c :: acc) rest

def pyFormatGo (text : List Char) : Nat → List Char → Option (List Char)
  | 0, _ => none
  | fuel + 1, cs =>
    match cs with
    | [] => some []
    | '\x7b' :: '\x7b' :: rest => (fun r => '\x7b' :: r) <$> pyFormatGo text fuel rest
    | '\x7d' :: '\x7d' :: rest => (fun r => '\x7d' :: r) <$> pyFormatGo text fuel rest
    | '\x7b' :: rest =>
      match parseFieldGo [] rest with
      | none => none
      | some pr =>
        if pr.1 = "text".toList then (fun r => text ++ r) <$> pyFormatGo text fuel pr.2
        else none
    | '\x7d' :: _ => none
    | c :: rest => (fun r => c :: r) <$> pyFormatGo text fuel rest

def pyFormat (templ text : String) : Option String :=
  (pyFormatGo text.toList (templ.toList.length + 1) templ.toList).map String.mk

/-! ## PRESET_PROMPTS (editor.py lines 27-53) -/

def defaultPrompt : String :=
  "Clean up this transcribed speech. Fix grammar, remove filler words,\nadd proper punctuation and capitalization. Keep the meaning and tone intact.\nReturn ONLY the cleaned text, nothing else.\n\nText: {text}"

def emailPrompt : String :=
  "Convert this transcribed speech into a professional email.\nFix grammar, structure it properly with greeting/body/closing if appropriate.\nBe concise but complete. Return ONLY the email text, nothing else.\n\nText: {text}"

def commitPrompt : String :=
  "Convert this transcribed speech into a concise git commit message.\nFollow conventional commit format if possible (feat:, fix:, docs:, etc.).\nKeep it under 72 characters for the first line. Return ONLY the commit message.\n\nText: {text}"

def notesPrompt : String :=
  "Clean up this transcribed speech into well-formatted notes.\nUse bullet points where appropriate. Fix grammar and organize logically.\nReturn ONLY the formatted notes, nothing else.\n\nText: {text}"

def codePrompt : String :=
  "Convert this transcribed speech into code or a code comment.\nIf it is describing code, write the code. If it is explaining something,\nmake it a clear comment. Return ONLY the code/comment, nothing else.\n\nText: {text}"

/-- `PRESET_PROMPTS.get(preset, PRESET_PROMPTS["default"])`. -/
def presetPrompt (preset : String) : String :=
  if preset = "default" then defaultPrompt
  else if preset = "email" then emailPrompt
  else if preset = "commit" then commitPrompt
  else if preset = "notes" then notesPrompt
  else if preset = "code" then codePrompt
  else defaultPrompt

/-- `custom_prompt or PRESET_PROMPTS.get(...)`: Python truthiness, so an
empty custom prompt falls back to the preset. -/
def promptTemplate (preset : String) (customPrompt : Option String) : String :=
  match customPrompt with
  | some cp => if cp = "" then presetPrompt preset else cp
  | none => presetPrompt preset

/-! ## AI editors (editor.py lines 95-196)

The HTTP client, the remote service, and the JSON field extraction live
inside the editors' try-blocks; a `Backend` abstracts them as one call from
the rendered prompt to `some response` (success) or `none` (any exception
raised inside the try-block). `Except.error` marks an exception escaping to
the caller. -/

structure Backend where
  respond : String → Option String

/-- OllamaEditor.edit (editor.py lines 102-126): render the prompt (outside
the try-block), call the backend, strip the response; any backend failure
degrades to BasicEditor on the same text and preset. -/
def OllamaEditor.edit (b : Backend) (text preset : String)
    (customPrompt : Option String) : Except Unit String :=
  let templ := promptTemplate preset customPrompt
  match pyFormat templ text with
  | none => .error ()
  | some prompt =>
    match b.respond prompt with
    | some resp => .ok (String.mk (pyStrip resp.toList))
    | none => .ok (BasicEditor.edit text preset)

/-- OpenAIEditor.edit (editor.py lines 136-161): identical control flow; the
endpoint, auth header and response-JSON path differ only inside the
abstracted backend call. -/
def OpenAIEditor.edit (b : Backend) (text preset : String)
    (customPrompt : Option String) : Except Unit String :=
  let templ := promptTemplate preset customPrompt
  match pyFormat templ text with
  | none => .error ()
  | some prompt =>
    match b.respond prompt with
    | some resp => .ok (String.mk (pyStrip resp.toList))
    | none => .ok (BasicEditor.edit text preset)

/-- AnthropicEditor.edit (editor.py lines 171-196): identical control flow;
the endpoint, auth header and response-JSON path differ only inside the
abstracted backend call. -/
def AnthropicEditor.edit (b : Backend) (text preset : String)
    (customPrompt : Option String) : Except Unit String :=
  let templ := promptTemplate preset customPrompt
  match pyFormat templ text with
  | none => .error ()
  | some prompt =>
    match b.respond prompt with
    | some resp => .ok (String.mk (pyStrip resp.toList))
    | none => .ok (BasicEditor.edit text preset)

/-- The configurations for which create_editor (editor.py lines 199-204)
returns the rule-based BasicEditor directly: AI editing disabled, or the
provider set to "none". -/
def createEditorIsBasic (enabled : Bool) (provider : String) : Bool :=
  !enabled || provider = "none"

/-! ## Processing pipeline (overlay_win.py lines 189-250)

The dictionary, voice-command and snippet components are collaborators whose
modules are not part of the provided sources; they enter as function
parameters, as do the transcriber and the configured editor. The result
records the texts passed to `typer.type_text` and the voice commands
executed. -/

structure ProcResult where
  typed : List String
  commands : List String
deriving DecidableEq

def processRecording
    (dictEnabled voiceEnabled aiEnabled snippetsEnabled : Bool)
    (dictApply : String → String)
    (detectCommand : String → Option String × String)
    (expand : String → String)
    (editorEdit : String → String → String)
    (preset : String)
    (transcribe : String → String)
    (audioData : String) : ProcResult :=
  if audioData = "" then { typed := [], commands := [] }
  else
    let text0 := transcribe audioData
    if text0 = "" then { typed := [], commands := [] }
    else
      let text1 := if dictEnabled then dictApply text0 else text0
      let pr := if voiceEnabled then detectCommand text1 else (none, text1)
      let cmds := match pr.1 with | some c => [c] | none => []
      if pr.1.isSome && pr.2 = "" then { typed := [], commands := cmds }
      else
        let text2 := match pr.1 with | some _ => pr.2 | none => text1
        let text3 := if aiEnabled then editorEdit text2 preset else text2
        let text4 := if snippetsEnabled then expand text3 else text3
        { typed := [text4], commands := cmds }

/-! ## Concrete keys, configurations and event scenarios used by the claims -/

/-- A control-modifier key event as delivered through the name attribute. -/
def ctrlKey : RawKey := { char := none, name := some "ctrl", repr := "" }

def shiftKey : RawKey := { char := none, name := some "shift", repr := "" }

def spaceKey : RawKey := { char := none, name := some "space", repr := "" }

/-- The default hotkey combination (config.py lines 16-18) in wispr mode
with no second modifier. -/
def wisprCfg : HotkeyConfig :=
  { modifier1 := "ctrl", modifier2 := "", key := "space", mode := "wispr" }

/-- The default hotkey combination in toggle mode. -/
def toggleCfg : HotkeyConfig :=
  { modifier1 := "ctrl", modifier2 := "shift", key := "space", mode := "toggle" }

/-- One full tap of the ctrl+space combination at time `t` (milliseconds):
both keys go down (the combination edge occurs on the space press) and both
come back up, leaving no key physically held. -/
def comboTap (t : ℤ) : List KeyEvent :=
  [ .press ctrlKey t, .press spaceKey t, .release spaceKey, .release ctrlKey ]

/-- One full tap of the ctrl+shift+space combination (times are irrelevant
outside wispr mode). -/
def toggleRound : List KeyEvent :=
  [ .press ctrlKey 0, .press shiftKey 0, .press spaceKey 0,
    .release spaceKey, .release shiftKey, .release ctrlKey ]

def toggleTaps (n : Nat) : List KeyEvent :=
  (List.range n).flatMap (fun _ => toggleRound)

/-- A wispr-mode listener state with the listener field fixed, used to chase
the scenario of C4 through the machine. -/
def wState (ks : Finset String) (act togg : Bool) (lt : ℤ) (cont : Bool) : HotkeyState :=
  { pressedKeys := ks, hotkeyActive := act, isToggled := togg,
    lastTapTime := lt, inContinuousMode := cont, listenerRunning := false }

/-- The alternating signal sequence Activate, Deactivate, Activate, … of
length `n`. -/
def altSignals (n : Nat) : List Signal :=
  (List.range n).map (fun i => if i % 2 = 0 then Signal.activate else Signal.deactivate)

end WhisperFlow

open WhisperFlow

/-! ## Helper lemmas -/

theorem hkStep_pair (cfg : HotkeyConfig) (hd : Bool) (s : HotkeyState)
    (acc : List Signal) (e : KeyEvent) :
    hkStep cfg hd (s, acc) e =
      ((hkStep cfg hd (s, []) e).1, acc ++ (hkStep cfg hd (s, []) e).2) := by
  cases e <;> simp [hkStep]

theorem hkFoldl_acc (cfg : HotkeyConfig) (hd : Bool) (evs : List KeyEvent) :
    ∀ (s : HotkeyState) (acc : List Signal),
      List.foldl (hkStep cfg hd) (s, acc) evs =
        ((List.foldl (hkStep cfg hd) (s, []) evs).1,
         acc ++ (List.foldl (hkStep cfg hd) (s, []) evs).2) := by
  induction evs with
  | nil => intro s acc; simp
  | cons e t ih =>
    intro s acc
    simp only [List.foldl]
    rw [hkStep_pair cfg hd s acc e, ih (hkStep cfg hd (s, []) e).1 _,
        ih (hkStep cfg hd (s, []) e).1 (hkStep cfg hd (s, []) e).2]
    simp

theorem hkRun_append (cfg : HotkeyConfig) (hd : Bool) (s : HotkeyState)
    (l1 l2 : List KeyEvent) :
    hkRun cfg hd s (l1 ++ l2) =
      ((hkRun cfg hd (hkRun cfg hd s l1).1 l2).1,
       (hkRun cfg hd s l1).2 ++ (hkRun cfg hd (hkRun cfg hd s l1).1 l2).2) := by
  unfold hkRun
  rw [List.foldl_append]
  rw [show List.foldl (hkStep cfg hd) (s, []) l1 =
        ((List.foldl (hkStep cfg hd) (s, []) l1).1,
         (List.foldl (hkStep cfg hd) (s, []) l1).2) from rfl]
  rw [hkFoldl_acc cfg hd l2 (List.foldl (hkStep cfg hd) (s, []) l1).1
        (List.foldl (hkStep cfg hd) (s, []) l1).2]

set_option maxRecDepth 10000 in
theorem toggle_round_from_false :
    hkRun toggleCfg true { hkInit with isToggled := false } toggleRound =
      ({ hkInit with isToggled := true }, [Signal.activate]) := by decide

set_option maxRecDepth 10000 in
theorem toggle_round_from_true :
    hkRun toggleCfg true { hkInit with isToggled := true } toggleRound =
      ({ hkInit with isToggled := false }, [Signal.deactivate]) := by decide

theorem toggle_taps_run (n : Nat) :
    hkRun toggleCfg true hkInit (toggleTaps n) =
      ({ hkInit with isToggled := decide (n % 2 = 1) }, altSignals n) := by
  induction n with
  | zero => decide
  | succ n ih =>
    have hsplit : toggleTaps (n + 1) = toggleTaps n ++ toggleRound := by
      simp [toggleTaps, List.range_succ]
    rw [hsplit, hkRun_append, ih]
    have haltsplit : altSignals (n + 1) =
        altSignals n ++ [if n % 2 = 0 then Signal.activate else Signal.deactivate] := by
      simp [altSignals, List.range_succ]
    rcases Nat.mod_two_eq_zero_or_one n with h | h
    · have h1 : (n + 1) % 2 = 1 := by omega
      have hne : ¬(n % 2 = 1) := by omega
      rw [haltsplit]
      simp only [h, hne, h1, decide_eq_true_eq, decide_eq_false, if_pos rfl]
      simp [toggle_round_from_false]
    · have h1 : (n + 1) % 2 = 0 := by omega
      have hne : ¬((n + 1) % 2 = 1) := by omega
      rw [haltsplit]
      simp only [h, hne, h1]
      simp [toggle_round_from_true]

/-- C5: in toggle mode, N full taps of the combination (with all keys
released in between) emit exactly N signals alternating Activate,
Deactivate, …, starting with Activate, and key releases never emit a
signal. -/
theorem c5_toggle_alternates :
    (∀ n : Nat, (hkRun toggleCfg true hkInit (toggleTaps n)).2 = altSignals n)
      ∧ ∀ (k : RawKey) (s : HotkeyState), (hkOnRelease toggleCfg true k s).2 = [] := by
  constructor
  · intro n
    rw [toggle_taps_run n]
  · intro k s
    simp +decide [hkOnRelease, toggleCfg]


theorem step_press_ctrl (togg : Bool) (L t : ℤ) (cont : Bool) :
    hkOnPress wisprCfg true ctrlKey t (wState ∅ false togg L cont) =
      (wState {"ctrl"} false togg L cont, []) := by
  have h1 : normalizeKey ctrlKey = some "ctrl" := by decide
  have h2 : isHotkeyPressed wisprCfg {"ctrl"} = false := by decide
  simp [hkOnPress, wState, h1, h2]

theorem step_press_space_fresh (togg : Bool) (L t : ℤ)
    (h : ¬(t - L < doubleTapThreshold)) :
    hkOnPress wisprCfg true spaceKey t (wState {"ctrl"} false togg L false) =
      (wState (insert "space" {"ctrl"}) true togg t false, [Signal.activate]) := by
  have h1 : normalizeKey spaceKey = some "space" := by decide
  have h2 : isHotkeyPressed wisprCfg (insert "space" {"ctrl"}) = true := by decide
  simp +decide [hkOnPress, wState, wisprCfg, h1, h2, h]

theorem step_press_space_double (togg : Bool) (L t : ℤ)
    (h : t - L < doubleTapThreshold) :
    hkOnPress wisprCfg true spaceKey t (wState {"ctrl"} false togg L false) =
      (wState (insert "space" {"ctrl"}) true togg t true, [Signal.activate]) := by
  have h1 : normalizeKey spaceKey = some "space" := by decide
  have h2 : isHotkeyPressed wisprCfg (insert "space" {"ctrl"}) = true := by decide
  simp +decide [hkOnPress, wState, wisprCfg, h1, h2, h]

theorem step_press_space_cont (togg : Bool) (L t : ℤ) :
    hkOnPress wisprCfg true spaceKey t (wState {"ctrl"} false togg L true) =
      (wState (insert "space" {"ctrl"}) true togg t false, [Signal.deactivate]) := by
  have h1 : normalizeKey spaceKey = some "space" := by decide
  have h2 : isHotkeyPressed wisprCfg (insert "space" {"ctrl"}) = true := by decide
  simp +decide [hkOnPress, wState, wisprCfg, h1, h2]

theorem step_release_space_active (togg : Bool) (L : ℤ) :
    hkOnRelease wisprCfg true spaceKey (wState (insert "space" {"ctrl"}) true togg L false) =
      (wState {"ctrl"} false togg L false, [Signal.deactivate]) := by
  have h1 : normalizeKey spaceKey = some "space" := by decide
  have h2 : (insert "space" ({"ctrl"} : Finset String)).erase "space" = {"ctrl"} := by decide
  have h3 : isHotkeyPressed wisprCfg {"ctrl"} = false := by decide
  have h4 : ({"ctrl"} : Finset String) ≠ ∅ := by decide
  simp +decide [hkOnRelease, wState, wisprCfg, h1, h2, h3, h4]

theorem step_release_space_cont (togg : Bool) (L : ℤ) :
    hkOnRelease wisprCfg true spaceKey (wState (insert "space" {"ctrl"}) true togg L true) =
      (wState {"ctrl"} true togg L true, []) := by
  have h1 : normalizeKey spaceKey = some "space" := by decide
  have h2 : (insert "space" ({"ctrl"} : Finset String)).erase "space" = {"ctrl"} := by decide
  have h4 : ({"ctrl"} : Finset String) ≠ ∅ := by decide
  simp +decide [hkOnRelease, wState, wisprCfg, h1, h2, h4]

theorem step_release_ctrl_idle (togg : Bool) (L : ℤ) (cont : Bool) :
    hkOnRelease wisprCfg true ctrlKey (wState {"ctrl"} false togg L cont) =
      (wState ∅ false togg L cont, []) := by
  have h1 : normalizeKey ctrlKey = some "ctrl" := by decide
  have h2 : ({"ctrl"} : Finset String).erase "ctrl" = ∅ := by decide
  simp +decide [hkOnRelease, wState, wisprCfg, h1, h2]

theorem step_release_ctrl_cont (togg : Bool) (L : ℤ) :
    hkOnRelease wisprCfg true ctrlKey (wState {"ctrl"} true togg L true) =
      (wState ∅ false togg L true, []) := by
  have h1 : normalizeKey ctrlKey = some "ctrl" := by decide
  have h2 : ({"ctrl"} : Finset String).erase "ctrl" = ∅ := by decide
  simp +decide [hkOnRelease, wState, wisprCfg, h1, h2]

theorem tap_fresh (togg : Bool) (L t : ℤ) (h : ¬(t - L < doubleTapThreshold)) :
    hkRun wisprCfg true (wState ∅ false togg L false) (comboTap t) =
      (wState ∅ false togg t false, [Signal.activate, Signal.deactivate]) := by
  simp only [comboTap, hkRun, List.foldl, hkStep,
    step_press_ctrl, step_press_space_fresh togg L t h,
    step_release_space_active, step_release_ctrl_idle]
  simp

theorem tap_double (togg : Bool) (L t : ℤ) (h : t - L < doubleTapThreshold) :
    hkRun wisprCfg true (wState ∅ false togg L false) (comboTap t) =
      (wState ∅ false togg t true, [Signal.activate]) := by
  simp only [comboTap, hkRun, List.foldl, hkStep,
    step_press_ctrl, step_press_space_double togg L t h,
    step_release_space_cont, step_release_ctrl_cont]
  simp

theorem tap_stop (togg : Bool) (L t : ℤ) :
    hkRun wisprCfg true (wState ∅ false togg L true) (comboTap t) =
      (wState ∅ false togg t false, [Signal.deactivate, Signal.deactivate]) := by
  simp only [comboTap, hkRun, List.foldl, hkStep,
    step_press_ctrl, step_press_space_cont,
    step_release_space_active, step_release_ctrl_idle]
  simp

/-- C4 (amended): wispr-mode traces from a clean start. A lone tap of the
combination yields Activate then Deactivate on release. A tap followed
within the 0.4 s double-tap threshold by a second press yields Activate on
the second press edge and enters continuous mode, and the release of that
second press yields no Deactivate; the next tap of the combination then
yields one Deactivate on its press edge plus a second Deactivate on its
release, and exits continuous mode. -/
theorem c4_amended_theorem (t1 t3 t5 : ℤ)
    (h1 : doubleTapThreshold ≤ t1) (h2 : t3 - t1 < doubleTapThreshold) :
    (hkRun wisprCfg true hkInit (comboTap t1)).2 = [Signal.activate, Signal.deactivate]
      ∧ (hkRun wisprCfg true hkInit (comboTap t1 ++ comboTap t3 ++ comboTap t5)).2 =
          [Signal.activate, Signal.deactivate, Signal.activate,
           Signal.deactivate, Signal.deactivate]
      ∧ (hkRun wisprCfg true hkInit
          (comboTap t1 ++ comboTap t3 ++ comboTap t5)).1.inContinuousMode = false := by
  have hinit : hkInit = wState ∅ false false 0 false := rfl
  have h1x : ¬(t1 - 0 < doubleTapThreshold) := by
    have h400 : doubleTapThreshold = (400 : ℤ) := rfl
    rw [h400] at h1 ⊢
    omega
  have hrun1 := tap_fresh false 0 t1 h1x
  have hfull : hkRun wisprCfg true hkInit (comboTap t1 ++ comboTap t3 ++ comboTap t5) =
      (wState ∅ false false t5 false,
       [Signal.activate, Signal.deactivate, Signal.activate,
        Signal.deactivate, Signal.deactivate]) := by
    rw [hinit, hkRun_append, hkRun_append, hrun1]
    simp only [tap_double false t1 t3 h2, tap_stop false t3 t5]
    simp
  refine ⟨?_, ?_, ?_⟩
  · rw [hinit, hrun1]
  · rw [hfull]
  · rw [hfull]
    rfl

set_option maxRecDepth 10000 in
/-- C4 counterexample: with concrete timestamps (a tap at 1000 ms, a second
press at 1200 ms entering continuous mode, and a stop tap at 2000 ms), the
stop tap fires Deactivate twice — once on its press edge (continuous-mode
exit) and once more on its release (the release branch sees the
continuous-mode flag already cleared) — so the claim that the next tap
yields exactly one Deactivate is false on the code. -/
theorem c4_counterexample :
    (hkRun wisprCfg true hkInit (comboTap 1000 ++ comboTap 1200 ++ comboTap 2000)).2 =
        [Signal.activate, Signal.deactivate, Signal.activate,
         Signal.deactivate, Signal.deactivate]
      ∧ (hkRun wisprCfg true hkInit (comboTap 1000 ++ comboTap 1200 ++ comboTap 2000)).2 ≠
        [Signal.activate, Signal.deactivate, Signal.activate, Signal.deactivate] := by
  decide

/-- C4 witness: the amended trace theorem at the concrete timestamps 1000,
1200 and 2000 ms. -/
theorem c4_amended_witness :
    (hkRun wisprCfg true hkInit (comboTap 1000)).2 = [Signal.activate, Signal.deactivate]
      ∧ (hkRun wisprCfg true hkInit (comboTap 1000 ++ comboTap 1200 ++ comboTap 2000)).2 =
          [Signal.activate, Signal.deactivate, Signal.activate,
           Signal.deactivate, Signal.deactivate]
      ∧ (hkRun wisprCfg true hkInit
          (comboTap 1000 ++ comboTap 1200 ++ comboTap 2000)).1.inContinuousMode = false :=
  c4_amended_theorem 1000 1200 2000 (by decide) (by decide)

theorem sessionStep_mutex (e : SessionEvent) (s : SessionState)
    (h : s.isRecording = false ∨ s.isProcessing = false) :
    (sessionStep e s).1.isRecording = false ∨ (sessionStep e s).1.isProcessing = false := by
  obtain ⟨r, p, a⟩ := s
  revert h
  cases r <;> cases p <;> cases a <;> cases e <;> decide

/-- C1: an Activate delivered while the session controller is processing
leaves the state unchanged and starts no capture, and along every event
sequence from startup the controller is never simultaneously recording and
processing (at most one cycle is in flight). -/
theorem c1_processing_mutex :
    (∀ s : SessionState, s.isProcessing = true → sessionStep .activate s = (s, []))
      ∧ ∀ evs : List SessionEvent,
          (sessionRun evs).isRecording = false ∨ (sessionRun evs).isProcessing = false := by
  constructor
  · intro s h
    simp [sessionStep, sessionActivate, h]
  · have key : ∀ (evs : List SessionEvent) (s : SessionState),
        s.isRecording = false ∨ s.isProcessing = false →
          (List.foldl (fun s e => (sessionStep e s).1) s evs).isRecording = false
            ∨ (List.foldl (fun s e => (sessionStep e s).1) s evs).isProcessing = false := by
      intro evs
      induction evs with
      | nil => intro s h; exact h
      | cons e t ih =>
        intro s h
        exact ih _ (sessionStep_mutex e s h)
    intro evs
    exact key evs sessionInit (Or.inl rfl)

/-- C1 witness: the mutual-exclusion theorem applied to the Processing state
and to the two-signal event sequence Activate, Deactivate. -/
theorem c1_witness :
    sessionStep .activate { isRecording := false, isProcessing := true, recActive := false } =
        ({ isRecording := false, isProcessing := true, recActive := false }, [])
      ∧ ((sessionRun [.activate, .deactivate]).isRecording = false
          ∨ (sessionRun [.activate, .deactivate]).isProcessing = false) :=
  ⟨c1_processing_mutex.1 _ rfl, c1_processing_mutex.2 [.activate, .deactivate]⟩

/-- C2: for the clipboard-based insertion, whenever reading the original
clipboard succeeded (and the restore write itself does not fail), the
clipboard again holds the original value after the call, whether or not the
copy or paste step raised; when capture failed, no restore is attempted and
the capture failure raises nothing. -/
theorem c2_clipboard_restored (o : PasteOracle) (clip text : String) :
    (o.captureOk = true → o.restoreOk = true → (pasteText o clip text).clip = clip)
      ∧ (o.captureOk = false →
          (pasteText o clip text).restoreAttempted = false
            ∧ (o.copyOk = true → o.pasteOk = true → (pasteText o clip text).raised = false)) := by
  obtain ⟨cap, cop, pas, res⟩ := o
  cases cap <;> cases cop <;> cases pas <;> cases res <;> simp [pasteText]

/-- C2 witness: the restore theorem at a concrete oracle whose copy step
raises, and at one whose capture raises. -/
theorem c2_witness :
    (pasteText ⟨true, false, true, true⟩ "orig" "new").clip = "orig"
      ∧ (pasteText ⟨false, true, true, true⟩ "orig" "new").restoreAttempted = false :=
  ⟨(c2_clipboard_restored ⟨true, false, true, true⟩ "orig" "new").1 rfl rfl,
   ((c2_clipboard_restored ⟨false, true, true, true⟩ "orig" "new").2 rfl).1⟩

/-- C10: inserting the empty string is a no-op for every insertion method
and oracle: no effects (no synthetic key event, no clipboard read or
write), the clipboard unchanged, nothing raised. -/
theorem c10_empty_text_noop (o : PasteOracle) (clip method : String) :
    typeText o clip "" method =
      { effects := [], clip := clip, raised := false, restoreAttempted := false } := by
  simp [typeText]

/-- C6 counterexample: stopping the listener does not clear the
continuous-mode flag, so a start following a stop does not begin from the
state of a fresh construction — continuous mode survives the restart. -/
theorem c6_counterexample :
    (hkStart (hkStop
        { hkInit with inContinuousMode := true, listenerRunning := true })).inContinuousMode
        = true
      ∧ (hkStart hkInit).inContinuousMode = false := by
  decide

/-- C6 (amended): stopping the listener clears the pressed-key set, the
hotkey-active flag and the toggle flag (and tears down the listener), but
leaves the continuous-mode flag and the last-tap timestamp untouched. -/
theorem c6_amended_theorem (s : HotkeyState) :
    (hkStop s).pressedKeys = ∅
      ∧ (hkStop s).hotkeyActive = false
      ∧ (hkStop s).isToggled = false
      ∧ (hkStop s).listenerRunning = false
      ∧ (hkStop s).inContinuousMode = s.inContinuousMode
      ∧ (hkStop s).lastTapTime = s.lastTapTime := by
  simp [hkStop]

/-- C7: the normalizer maps every left/right variant of a modifier family
reaching the canonicalization branch to the family's single lowercase
token, maps character keys to their lowercase character, and maps named
keys to their lowercase name. -/
theorem c7_normalize_canonical :
    (normalizeKey { char := none, name := none, repr := "Key.cmd" } = some "cmd"
      ∧ normalizeKey { char := none, name := none, repr := "Key.cmd_l" } = some "cmd"
      ∧ normalizeKey { char := none, name := none, repr := "Key.cmd_r" } = some "cmd"
      ∧ normalizeKey { char := none, name := none, repr := "Key.ctrl" } = some "ctrl"
      ∧ normalizeKey { char := none, name := none, repr := "Key.ctrl_l" } = some "ctrl"
      ∧ normalizeKey { char := none, name := none, repr := "Key.ctrl_r" } = some "ctrl"
      ∧ normalizeKey { char := none, name := none, repr := "Key.shift" } = some "shift"
      ∧ normalizeKey { char := none, name := none, repr := "Key.shift_l" } = some "shift"
      ∧ normalizeKey { char := none, name := none, repr := "Key.shift_r" } = some "shift"
      ∧ normalizeKey { char := none, name := none, repr := "Key.alt" } = some "alt"
      ∧ normalizeKey { char := none, name := none, repr := "Key.alt_l" } = some "alt"
      ∧ normalizeKey { char := none, name := none, repr := "Key.alt_r" } = some "alt"
      ∧ normalizeKey { char := none, name := none, repr := "Key.option" } = some "alt")
      ∧ (∀ (c : String) (n : Option String) (r : String), c ≠ "" →
          normalizeKey { char := some c, name := n, repr := r } = some (strLower c))
      ∧ (∀ n r : String,
          normalizeKey { char := none, name := some n, repr := r } = some (strLower n)) := by
  refine ⟨by decide, ?_, ?_⟩
  · intro c n r hc
    simp [normalizeKey, hc]
  · intro n r
    simp [normalizeKey, normalizeKeyTail]

/-- C7 witness: the normalizer theorem applied to the character key "A". -/
theorem c7_witness :
    normalizeKey { char := some "A", name := none, repr := "" } = some "a" := by
  rw [c7_normalize_canonical.2.1 "A" none "" (by decide)]
  decide

/-- C9: the pydantic mode field of HotkeyConfig rejects "wispr"
(double-tap-hold) at configuration-validation time even though the hotkey
handler implements and documents that mode and the macOS settings window
stores it: the claim that mode ranges over three accepted values is what
the rest of the code expects, and `Literal["hold", "toggle"]` contradicts
it. -/
theorem c9_wispr_mode_rejected :
    hotkeyModeAllowed "wispr" = false
      ∧ hotkeyModeAllowed "hold" = true
      ∧ hotkeyModeAllowed "toggle" = true
      ∧ modeDescription "wispr" = some "hold to talk, double-tap for continuous"
      ∧ rodinIndexMode 2 = "wispr"
      ∧ (hkRun wisprCfg true hkInit [.press ctrlKey 1000, .press spaceKey 1000]).2 =
          [Signal.activate] := by
  decide

/-- C3 counterexample: with the transcriber returning
"um so like i think we should ship it" and the rule-based editor applied
(AI provider "none", other stages disabled), the text handed to insertion
is not "I think we should ship it.": the like-filler pattern requires a
following comma, "so" is not a filler pattern at all, and only the first
letter is capitalized. -/
theorem c3_counterexample :
    (processRecording false false true false id (fun t => (none, t)) id BasicEditor.edit
        "default" (fun _ => "um so like i think we should ship it") "audio").typed
      ≠ ["I think we should ship it."] := by
  decide

/-- C3 (amended): in the same scenario the pipeline calls insertion exactly
once, with exactly the string "So like i think we should ship it." (only
"um" is removed, the sentence is capitalized and a final period appended),
and executes no voice command; such a configuration (AI editing enabled
with provider "none") is exactly one for which create_editor returns the
rule-based BasicEditor. -/
theorem c3_amended_theorem :
    createEditorIsBasic true "none" = true
      ∧ processRecording false false true false id (fun t => (none, t)) id BasicEditor.edit
          "default" (fun _ => "um so like i think we should ship it") "audio"
        = { typed := ["So like i think we should ship it."], commands := [] } := by
  exact ⟨rfl, by decide⟩

/-- C8 counterexample: the prompt is rendered outside the editors'
try-blocks, so a custom prompt that is an invalid format string (here the
field "foo", which `str.format(text=...)` cannot resolve) makes `edit`
raise to its caller in all three AI editors, even with a healthy backend. -/
theorem c8_counterexample :
    OllamaEditor.edit ⟨fun _ => some "ok"⟩ "hi" "default" (some "\x7bfoo\x7d") = .error ()
      ∧ OpenAIEditor.edit ⟨fun _ => some "ok"⟩ "hi" "default" (some "\x7bfoo\x7d") = .error ()
      ∧ AnthropicEditor.edit ⟨fun _ => some "ok"⟩ "hi" "default" (some "\x7bfoo\x7d")
          = .error () :=
  ⟨rfl, rfl, rfl⟩

/-- C8 (amended): whenever the prompt template renders successfully — in
particular for every preset prompt and every well-formed custom prompt —
none of the three AI editors raises, and whenever the backend call fails
the result is exactly the rule-based BasicEditor cleanup of the same text
and preset. -/
theorem c8_amended_theorem (b : Backend) (text preset : String) (cp : Option String)
    (p : String) (hfmt : pyFormat (promptTemplate preset cp) text = some p) :
    (OllamaEditor.edit b text preset cp ≠ .error ()
        ∧ (b.respond p = none →
            OllamaEditor.edit b text preset cp = .ok (BasicEditor.edit text preset)))
      ∧ (OpenAIEditor.edit b text preset cp ≠ .error ()
        ∧ (b.respond p = none →
            OpenAIEditor.edit b text preset cp = .ok (BasicEditor.edit text preset)))
      ∧ (AnthropicEditor.edit b text preset cp ≠ .error ()
        ∧ (b.respond p = none →
            AnthropicEditor.edit b text preset cp = .ok (BasicEditor.edit text preset))) := by
  have keyO : OllamaEditor.edit b text preset cp =
      (match b.respond p with
       | some resp => Except.ok (String.mk (pyStrip resp.toList))
       | none => Except.ok (BasicEditor.edit text preset)) := by
    simp only [OllamaEditor.edit, hfmt]
  have keyP : OpenAIEditor.edit b text preset cp =
      (match b.respond p with
       | some resp => Except.ok (String.mk (pyStrip resp.toList))
       | none => Except.ok (BasicEditor.edit text preset)) := by
    simp only [OpenAIEditor.edit, hfmt]
  have keyA : AnthropicEditor.edit b text preset cp =
      (match b.respond p with
       | some resp => Except.ok (String.mk (pyStrip resp.toList))
       | none => Except.ok (BasicEditor.edit text preset)) := by
    simp only [AnthropicEditor.edit, hfmt]
  refine ⟨⟨?_, ?_⟩, ⟨?_, ?_⟩, ⟨?_, ?_⟩⟩ <;>
    cases hr : b.respond p <;> simp [keyO, keyP, keyA, hr]

set_option maxRecDepth 40000 in
/-- C8 witness: the fallback theorem at a backend that always fails, with
no custom prompt and the default preset. -/
theorem c8_amended_witness :
    OllamaEditor.edit ⟨fun _ => none⟩ "hi" "default" none =
      .ok (BasicEditor.edit "hi" "default") :=
  ((c8_amended_theorem ⟨fun _ => none⟩ "hi" "default" none
      "Clean up this transcribed speech. Fix grammar, remove filler words,\nadd proper punctuation and capitalization. Keep the meaning and tone intact.\nReturn ONLY the cleaned text, nothing else.\n\nText: hi"
      (by decide)).1.2) rfl
